import Mathlib

/-!
Verification of the ESP32 multi-transport LED-control firmware
(`ESP32_Hybrid_REST_WebSocket.cpp` and the single-transport variants)
against its natural-language specification.

The firmware is embedded shallowly: global mutable state becomes explicit
state values threaded through the handler functions, Arduino `String`
operations become Lean `String` operations, and the `uint32_t` session
counter and millisecond clock are modelled as naturals reduced modulo 2^32
exactly where the C++ type would wrap.
-/

namespace ESP32

/-- `2^32`, the modulus of the firmware's `uint32_t` values. -/
def U32 : Nat := 2 ^ 32

/-- ASCII lowercasing, the Lean counterpart of Arduino
`String.toLowerCase()` (which lowercases the ASCII letters in place);
`Char.toLower` maps exactly the characters `A`-`Z`. -/
def toLowerStr (s : String) : String := ⟨s.toList.map Char.toLower⟩

/-- Character-list substring search: does `pat` occur contiguously in
`hay`?  (Arduino `String.indexOf` succeeds on the empty pattern, and so
does this.) -/
def hasSubChars (hay pat : List Char) : Bool :=
  match hay with
  | [] => pat.isEmpty
  | c :: rest => pat.isPrefixOf (c :: rest) || hasSubChars rest pat

/-- Substring containment, the Lean counterpart of Arduino
`body.indexOf(pat) >= 0`. -/
def containsSub (s pat : String) : Bool :=
  hasSubChars s.toList pat.toList

/-- The response assembled by `sendJson(code, message, includeState)` in
`ESP32_Hybrid_REST_WebSocket.cpp` (and identically in
`http-REST/ESP32_REST_Minimal.cpp`): `success` is the comparison
`code == 200`, and the `led` field is present only when `includeState`
is set. -/
structure HttpResponse where
  code : Nat
  success : Bool
  message : String
  ledField : Option Bool
  timestamp : Nat
deriving DecidableEq, Repr

/-- Shallow embedding of `sendJson`: the JSON object it serialises,
with the current `ledState` and `millis()` passed explicitly. -/
def sendJson (code : Nat) (message : String) (includeState : Bool)
    (led : Bool) (now : Nat) : HttpResponse :=
  { code := code
    success := code == 200
    message := message
    ledField := if includeState then some led else none
    timestamp := now }

/-- Shallow embedding of `handleLedControl` (POST /led) from
`ESP32_Hybrid_REST_WebSocket.cpp` lines 276-296, identical in behaviour to
`http-REST/ESP32_REST_Minimal.cpp` lines 156-174.  The body is `none` when
the request carries no `plain` argument.  Returns the new `ledState`
together with the HTTP response. -/
def handleLedControl (body : Option String) (led : Bool) (now : Nat) :
    Bool × HttpResponse :=
  match body with
  | none => (led, sendJson 400 "Missing JSON body" false led now)
  | some b =>
    let lb := toLowerStr b
    if containsSub lb "\"state\":true" then
      (true, sendJson 200 "LED ON" true true now)
    else if containsSub lb "\"state\":false" then
      (false, sendJson 200 "LED OFF" true false now)
    else
      (led, sendJson 400 "Invalid JSON format" false led now)

/-- A message pushed over the WebSocket to the requesting client:
either the `buildWsResponseJson(success, message)` object (which embeds the
current `ledState` and `millis()`), or the `buildStatusJson()` snapshot
(abstracted to the state-dependent fields `led` and `timestamp`; the
remaining fields report the network environment). -/
inductive WsMsg where
  | response (success : Bool) (message : String) (led : Bool) (timestamp : Nat)
  | statusJson (led : Bool) (timestamp : Nat)
deriving DecidableEq, Repr

/-- Result of one run of the WebSocket text-frame handler: the new
`ledState`, the message sent back to the sending client (if any; the
`list` branch only prints locally and an inactive slot gets nothing), and
whether `setLED` ran (which additionally broadcasts an `led_update` to
every connected client). -/
structure WsHandlerResult where
  led : Bool
  sentToClient : Option WsMsg
  ledBroadcast : Bool
deriving DecidableEq, Repr

/-- Shallow embedding of `handleWebSocketMessage` from
`ESP32_Hybrid_REST_WebSocket.cpp` lines 331-369: `active` is
`clients[clientNum].active`, `led` is `ledState`, `now` is `millis()`. -/
def handleWebSocketMessage (active : Bool) (led : Bool) (now : Nat)
    (payload : String) : WsHandlerResult :=
  if !active then ⟨led, none, false⟩
  else
    let p := toLowerStr payload
    if containsSub p "\"command\":\"led_on\"" then
      ⟨true, some (.response true "LED ON" true now), true⟩
    else if containsSub p "\"command\":\"led_off\"" then
      ⟨false, some (.response true "LED OFF" false now), true⟩
    else if containsSub p "\"command\":\"toggle\"" then
      ⟨!led, some (.response true (if !led then "LED ON" else "LED OFF") (!led) now), true⟩
    else if containsSub p "\"command\":\"status\"" then
      ⟨led, some (.statusJson led now), false⟩
    else if containsSub p "\"command\":\"list\"" then
      ⟨led, none, false⟩
    else
      ⟨led, some (.response false "Unknown command" led now), false⟩

/-- The closed set of command variants the WebSocket text-frame handler
distinguishes; anything matching none of the five substrings is
`unrecognized`. -/
inductive WsCommand where
  | ledOn
  | ledOff
  | toggle
  | queryStatus
  | listSessions
  | unrecognized
deriving DecidableEq, Repr

/-- The classification step implicit in `handleWebSocketMessage`'s
if/else-if chain, extracted as a standalone pure total parser: same
substrings, tested in the same order on the lowercased payload. -/
def parseWsCommand (payload : String) : WsCommand :=
  let p := toLowerStr payload
  if containsSub p "\"command\":\"led_on\"" then .ledOn
  else if containsSub p "\"command\":\"led_off\"" then .ledOff
  else if containsSub p "\"command\":\"toggle\"" then .toggle
  else if containsSub p "\"command\":\"status\"" then .queryStatus
  else if containsSub p "\"command\":\"list\"" then .listSessions
  else .unrecognized

/-- What the handler does for each parsed command variant (active slot). -/
def interpWsCommand (c : WsCommand) (led : Bool) (now : Nat) : WsHandlerResult :=
  match c with
  | .ledOn => ⟨true, some (.response true "LED ON" true now), true⟩
  | .ledOff => ⟨false, some (.response true "LED OFF" false now), true⟩
  | .toggle => ⟨!led, some (.response true (if !led then "LED ON" else "LED OFF") (!led) now), true⟩
  | .queryStatus => ⟨led, some (.statusJson led now), false⟩
  | .listSessions => ⟨led, none, false⟩
  | .unrecognized => ⟨led, some (.response false "Unknown command" led now), false⟩

/-- ASCII whitespace trim on both ends, the counterpart of Arduino
`String.trim()`. -/
def trimStr (s : String) : String :=
  ⟨(((s.toList.dropWhile Char.isWhitespace).reverse.dropWhile
      Char.isWhitespace).reverse)⟩

/-- The reply `processBluetoothCommand` writes back over the Bluetooth
serial link (the status and help replies are multi-line banners, abstracted
to one variant each; `silent` is the fall-through for an empty command,
which prints nothing). -/
inductive BtReply where
  | ledOn
  | ledOff
  | statusReport (led : Bool)
  | helpText
  | unknown (cmd : String)
  | silent
deriving DecidableEq, Repr

/-- Shallow embedding of `processBluetoothCommand` from
`bluetooth/ESP32_Bluetooth_Simple.cpp` lines 105-141: the raw line is
trimmed and lowercased, then compared for full equality (not substring
containment) against the four phrase commands; a non-empty unrecognized
command gets the "Unknown command" reply, an empty one gets nothing. -/
def processBluetoothCommand (led : Bool) (raw : String) : Bool × BtReply :=
  let command := toLowerStr (trimStr raw)
  if command == "led on" then (true, .ledOn)
  else if command == "led off" then (false, .ledOff)
  else if command == "status" then (led, .statusReport led)
  else if command == "help" then (led, .helpText)
  else if command.length > 0 then (led, .unknown command)
  else (led, .silent)

/-- Per-slot connection record, `struct ClientInfo` of
`ESP32_Hybrid_REST_WebSocket.cpp` lines 29-34 (the `IPAddress` is
abstracted to a natural number). -/
structure ClientInfo where
  sessionId : Nat
  ip : Nat
  connectTime : Nat
  active : Bool
deriving DecidableEq, Repr

/-- The registry globals: `sessionCounter` (a `uint32_t`, always kept
`< 2^32`) and the fixed `clients` table. -/
structure RegistryState where
  sessionCounter : Nat
  clients : List ClientInfo
deriving DecidableEq, Repr

/-- `WEBSOCKETS_SERVER_CLIENT_MAX`, 8 by default. -/
def MAX_CLIENTS : Nat := 8

/-- The state after `initClientTracking()`: every slot inactive with
`sessionId = 0`, counter at 0. -/
def initRegistry : RegistryState :=
  { sessionCounter := 0
    clients := List.replicate MAX_CLIENTS ⟨0, 0, 0, false⟩ }

/-- Replace index `n` of `l` by `f` of the element there (no-op out of
range), used to mirror in-place `clients[clientNum]` updates. -/
def modifyIdx (l : List ClientInfo) (n : Nat) (f : ClientInfo → ClientInfo) :
    List ClientInfo :=
  match l.get? n with
  | some a => l.set n (f a)
  | none => l

/-- Shallow embedding of `registerClient` (lines 51-65): increments the
`uint32_t` session counter (wrapping at `2^32`), stores the new value as
the slot's `sessionId` and marks the slot active.  Also returns the issued
`sessionId`. -/
def registerClient (clientNum ip now : Nat) (s : RegistryState) :
    RegistryState × Nat :=
  let c := (s.sessionCounter + 1) % U32
  ({ sessionCounter := c
     clients := modifyIdx s.clients clientNum
       (fun _ => ⟨c, ip, now, true⟩) }, c)

/-- Shallow embedding of `unregisterClient` (lines 70-78): marks the slot
inactive, touching nothing else. -/
def unregisterClient (clientNum : Nat) (s : RegistryState) : RegistryState :=
  { s with clients := modifyIdx s.clients clientNum
              (fun ci => { ci with active := false }) }

/-- Shallow embedding of `getActiveClientCount` (lines 83-89). -/
def getActiveClientCount (clients : List ClientInfo) : Nat :=
  clients.countP (fun c => c.active)

/-- A connect or disconnect event delivered to the registry
(`webSocketEvent`'s `WStype_CONNECTED` / `WStype_DISCONNECTED` cases). -/
inductive RegEvent where
  | reg (slot ip now : Nat)
  | unreg (slot : Nat)
deriving DecidableEq, Repr

/-- Run a sequence of registry events, collecting the `sessionId`s issued
by the `register` calls in order. -/
def runReg (s : RegistryState) : List RegEvent → RegistryState × List Nat
  | [] => (s, [])
  | e :: es =>
    match e with
    | .reg slot ip now =>
      let (s', id) := registerClient slot ip now s
      let (s'', ids) := runReg s' es
      (s'', id :: ids)
    | .unreg slot =>
      runReg (unregisterClient slot s) es

/-- Number of `reg` events in a sequence. -/
def regCount : List RegEvent → Nat
  | [] => 0
  | .reg _ _ _ :: es => regCount es + 1
  | .unreg _ :: es => regCount es

/-- `STATUS_BROADCAST_INTERVAL_MS`. -/
def BROADCAST_INTERVAL : Nat := 5000

/-- Wrapping `uint32_t` subtraction `a - b` (both operands `< 2^32`). -/
def sub32 (a b : Nat) : Nat := (a + U32 - b) % U32

/-- Shallow embedding of `broadcastStatus` from
`ESP32_Hybrid_REST_WebSocket.cpp` lines 404-415: `now` is `millis()`
(truncated to 32 bits), the state records `lastStatusBroadcast`, and the
returned flag says whether `broadcastTXT` was called. -/
def broadcastStatus (clients : List ClientInfo) (now : Nat)
    (lastStatusBroadcast : Nat) : Nat × Bool :=
  let n := now % U32
  if sub32 n lastStatusBroadcast < BROADCAST_INTERVAL then
    (lastStatusBroadcast, false)
  else if getActiveClientCount clients == 0 then (n, false)
  else (n, true)

/-- Run the broadcast scheduler over a sequence of `millis()` samples,
counting how many broadcasts were issued. -/
def runBroadcasts (clients : List ClientInfo) (last : Nat) :
    List Nat → Nat × Nat
  | [] => (last, 0)
  | now :: rest =>
    let (last', sent) := broadcastStatus clients now last
    let (lastF, count) := runBroadcasts clients last' rest
    (lastF, (if sent then 1 else 0) + count)

/-- Modelled from the spec: the Device State record of §3 with its
`version` counter.  No `version` field exists anywhere under `src/` (the
sketches keep only `bool ledState`); the counter belongs to the
generalized Multi-Transport Device Control Core the spec defines, so it is
reproduced here from the spec's words: `version: monotonically increasing
counter incremented on every mutation`. -/
structure DeviceState where
  actuator_on : Bool
  started_at : Nat
  free_memory : Nat
  link_rssi : Int
  version : Nat
deriving DecidableEq, Repr

/-- Modelled from the spec: the closed Command variant set of §3. -/
inductive Command where
  | setActuator (v : Bool)
  | toggleActuator
  | queryStatus
  | listSessions
  | unrecognized (raw : String)
deriving DecidableEq, Repr

/-- Modelled from the spec: the Result record of §3. -/
structure CmdResult where
  success : Bool
  message : String
  snapshot : Option DeviceState
  timestamp : Nat
deriving DecidableEq, Repr

/-- Modelled from the spec: the Command Dispatcher of §4.2, which exists
only as the generalized core (the sketches inline their dispatch into the
per-transport handlers, without a `version` counter).  `SetActuator(v)`
sets `actuator_on = v` and increments `version`; `ToggleActuator` is
`SetActuator(!actuator_on)`; `QueryStatus` and `ListSessions` mutate
nothing; `Unrecognized` returns failure "Unknown command" with no
mutation. -/
def dispatch (cmd : Command) (now : Nat) (s : DeviceState) :
    DeviceState × CmdResult :=
  match cmd with
  | .setActuator v =>
    let s' := { s with actuator_on := v, version := s.version + 1 }
    (s', { success := true
           message := if v then "LED ON" else "LED OFF"
           snapshot := some s'
           timestamp := now })
  | .toggleActuator =>
    let v := !s.actuator_on
    let s' := { s with actuator_on := v, version := s.version + 1 }
    (s', { success := true
           message := if v then "LED ON" else "LED OFF"
           snapshot := some s'
           timestamp := now })
  | .queryStatus =>
    (s, { success := true, message := "status", snapshot := some s, timestamp := now })
  | .listSessions =>
    (s, { success := true, message := "sessions", snapshot := none, timestamp := now })
  | .unrecognized _ =>
    (s, { success := false, message := "Unknown command", snapshot := none, timestamp := now })

/-- Outcome of the spec's Session Registry `register` operation. -/
inductive RegisterOutcome where
  | ok (slot : Nat) (sessionId : Nat)
  | capacityExceeded
deriving DecidableEq, Repr

/-- Index of the first inactive slot, if any. -/
def findFreeSlot (clients : List ClientInfo) : Option Nat :=
  clients.findIdx? (fun c => !c.active)

/-- Modelled from the spec: the Session Registry `register` of §4.3.  Slot
allocation and capacity rejection are performed inside the vendor
WebSocket server library, not by code under `src/` (the sketches'
`registerClient` receives an already-allocated slot number); the spec's
words are: scan the fixed-size slot table for the first slot with
`active=false`, assign the next value of the global monotonic counter as
`session_id` and mark it active; if no free slot exists, fail with a
capacity error, evicting nothing. -/
def registerSpec (ip now : Nat) (s : RegistryState) :
    RegistryState × RegisterOutcome :=
  match findFreeSlot s.clients with
  | some slot =>
    let (s', id) := registerClient slot ip now s
    (s', .ok slot id)
  | none => (s, .capacityExceeded)

/-- A concrete Device State used to instantiate theorems. -/
def specState0 : DeviceState :=
  { actuator_on := false, started_at := 0, free_memory := 1000
    link_rssi := -40, version := 0 }

/-- A concrete registry whose eight slots are all active. -/
def fullRegistry : RegistryState :=
  { sessionCounter := 8
    clients := List.replicate MAX_CLIENTS ⟨1, 0, 0, true⟩ }

/-- The active branch of `handleWebSocketMessage` factors through the
extracted parser: classifying the payload and interpreting the variant
reproduces the handler exactly. -/
theorem handleWs_eq_interp_parse (led : Bool) (now : Nat) (payload : String) :
    handleWebSocketMessage true led now payload =
      interpWsCommand (parseWsCommand payload) led now := by
  simp only [handleWebSocketMessage, parseWsCommand, Bool.not_true,
    Bool.false_eq_true, if_false]
  split_ifs <;> simp_all [interpWsCommand]

/-- C1: POST /led with a body whose lowercased form contains
`"state":true` turns the LED on and answers 200 with `success:true` and
`led:true`; a body containing `"state":false` (and not the `true`
substring, which is tested first) turns it off and answers 200; a missing
body or one matching neither substring answers 400 with `success:false`
and leaves the LED unchanged.  Matching is substring containment on the
lowercased body, not JSON parsing. -/
theorem handleLedControl_spec (b : String) (led : Bool) (now : Nat) :
    (handleLedControl none led now =
      (led, sendJson 400 "Missing JSON body" false led now)) ∧
    (containsSub (toLowerStr b) "\"state\":true" = true →
      handleLedControl (some b) led now =
        (true, sendJson 200 "LED ON" true true now)) ∧
    (containsSub (toLowerStr b) "\"state\":true" = false →
     containsSub (toLowerStr b) "\"state\":false" = true →
      handleLedControl (some b) led now =
        (false, sendJson 200 "LED OFF" true false now)) ∧
    (containsSub (toLowerStr b) "\"state\":true" = false →
     containsSub (toLowerStr b) "\"state\":false" = false →
      handleLedControl (some b) led now =
        (led, sendJson 400 "Invalid JSON format" false led now)) ∧
    (sendJson 200 "LED ON" true true now).success = true ∧
    (sendJson 200 "LED ON" true true now).ledField = some true ∧
    (sendJson 400 "Invalid JSON format" false led now).success = false := by
  refine ⟨rfl, fun h1 => ?_, fun h1 h2 => ?_, fun h1 h2 => ?_, rfl, rfl, rfl⟩
  · simp [handleLedControl, h1]
  · simp [handleLedControl, h1, h2]
  · simp [handleLedControl, h1, h2]

/-- Witness for C1: the three body shapes evaluated concretely. -/
theorem handleLedControl_spec_witness :
    handleLedControl (some "\"state\":true") false 7 =
      (true, sendJson 200 "LED ON" true true 7) ∧
    handleLedControl (some "\"STATE\":false") true 7 =
      (false, sendJson 200 "LED OFF" true false 7) ∧
    handleLedControl (some "\"state\":\"bogus\"") true 7 =
      (true, sendJson 400 "Invalid JSON format" false true 7) :=
  ⟨(handleLedControl_spec "\"state\":true" false 7).2.1 (by decide),
   (handleLedControl_spec "\"STATE\":false" true 7).2.2.1 (by decide) (by decide),
   (handleLedControl_spec "\"state\":\"bogus\"" true 7).2.2.2.1 (by decide) (by decide)⟩

/-- C9: a POST /led body whose lowercased form contains both the
`"state":true` and the `"state":false` substrings turns the LED on and
answers 200 "LED ON" — the `true` branch is tested first, so it takes
precedence. -/
theorem handleLedControl_true_precedence (b : String) (led : Bool) (now : Nat)
    (h1 : containsSub (toLowerStr b) "\"state\":true" = true)
    (_h2 : containsSub (toLowerStr b) "\"state\":false" = true) :
    handleLedControl (some b) led now =
      (true, sendJson 200 "LED ON" true true now) := by
  simp [handleLedControl, h1]

/-- Witness for C9: a body containing both substrings. -/
theorem handleLedControl_true_precedence_witness :
    handleLedControl (some "\"state\":true,\"state\":false") false 3 =
      (true, sendJson 200 "LED ON" true true 3) :=
  handleLedControl_true_precedence "\"state\":true,\"state\":false" false 3
    (by decide) (by decide)

/-- C10: a text frame arriving on a slot whose tracking entry is not
active is dropped: `ledState` is unchanged, nothing is sent to the client
and no broadcast occurs. -/
theorem handleWs_inactive_drops (led : Bool) (now : Nat) (payload : String) :
    handleWebSocketMessage false led now payload = ⟨led, none, false⟩ := rfl

/-- C6: a payload recognized as no command (the `unrecognized` variant)
gets a failure response whose message is "Unknown command", and the device
state is untouched: `ledState` keeps its value and `setLED` does not run
(so no field of the device state changes and nothing is broadcast). -/
theorem handleWs_unknown_command (led : Bool) (now : Nat) (payload : String)
    (h : parseWsCommand payload = .unrecognized) :
    handleWebSocketMessage true led now payload =
      ⟨led, some (.response false "Unknown command" led now), false⟩ := by
  rw [handleWs_eq_interp_parse, h]; rfl

/-- Witness for C6: a non-command payload evaluated concretely. -/
theorem handleWs_unknown_command_witness :
    handleWebSocketMessage true true 11 "\"command\":\"restart\"" =
      ⟨true, some (.response false "Unknown command" true 11), false⟩ :=
  handleWs_unknown_command true 11 "\"command\":\"restart\"" (by decide)

/-- C3: toggling is an involution.  A payload recognized as `toggle` maps
`ledState` to its negation (the code runs `setLED(!ledState)`, i.e.
SetActuator of the negated state), so delivering it twice in succession
restores the original value. -/
theorem handleWs_toggle_involution (led : Bool) (now1 now2 : Nat)
    (payload : String) (h : parseWsCommand payload = .toggle) :
    (handleWebSocketMessage true led now1 payload).led = !led ∧
    (handleWebSocketMessage true
      (handleWebSocketMessage true led now1 payload).led now2 payload).led
        = led := by
  rw [handleWs_eq_interp_parse, handleWs_eq_interp_parse, h]
  simp [interpWsCommand]

/-- Witness for C3: the toggle frame from the spec's end-to-end example,
delivered twice from `ledState = false`. -/
theorem handleWs_toggle_involution_witness :
    (handleWebSocketMessage true false 1 "\"command\":\"toggle\"").led = true ∧
    (handleWebSocketMessage true
      (handleWebSocketMessage true false 1 "\"command\":\"toggle\"").led 2
      "\"command\":\"toggle\"").led = false := by
  have h := handleWs_toggle_involution false 1 2 "\"command\":\"toggle\""
    (by decide)
  simpa using h

/-- C4: the command classification is pure and total.  Every payload is
mapped to exactly one of the six variants; the active-slot handler's whole
behaviour factors through that classification (so every delivered payload
gets a single well-defined outcome, never an exception or a dropped
connection); an `unrecognized` payload is answered with the failure
response rather than silence; and the Bluetooth line handler likewise
answers every non-empty line with a defined reply. -/
theorem parseWsCommand_total (payload : String) (led : Bool) (now : Nat) :
    (parseWsCommand payload = .ledOn ∨ parseWsCommand payload = .ledOff ∨
     parseWsCommand payload = .toggle ∨
     parseWsCommand payload = .queryStatus ∨
     parseWsCommand payload = .listSessions ∨
     parseWsCommand payload = .unrecognized) ∧
    handleWebSocketMessage true led now payload =
      interpWsCommand (parseWsCommand payload) led now ∧
    (parseWsCommand payload = .unrecognized →
      (handleWebSocketMessage true led now payload).sentToClient =
        some (.response false "Unknown command" led now)) ∧
    ((toLowerStr (trimStr payload)).length > 0 →
      (processBluetoothCommand led payload).2 ≠ .silent) := by
  refine ⟨?_, handleWs_eq_interp_parse led now payload, fun h => ?_, fun h => ?_⟩
  · cases h : parseWsCommand payload <;> simp
  · rw [handleWs_eq_interp_parse, h]; rfl
  · simp only [processBluetoothCommand]
    split_ifs <;> simp_all

/-- Witness for C4: concrete classifications, including an unrecognized
payload answered with the failure response. -/
theorem parseWsCommand_total_witness :
    parseWsCommand "\"command\":\"led_on\"" = .ledOn ∧
    (handleWebSocketMessage true false 4 "garbage one").sentToClient =
      some (.response false "Unknown command" false 4) ∧
    (processBluetoothCommand false "garbage one").2 ≠ .silent :=
  ⟨by decide,
   (parseWsCommand_total "garbage one" false 4).2.2.1 (by decide),
   (parseWsCommand_total "garbage one" false 4).2.2.2 (by decide)⟩

/-- C8: `dispatch(SetActuator(v), s)` yields `actuator_on = v` and a
strictly larger `version`; and whenever a dispatch changes the device
state at all (the mutating commands), the `version` counter strictly
increases. -/
theorem dispatch_setActuator (v : Bool) (now : Nat) (s : DeviceState)
    (c : Command) :
    (dispatch (.setActuator v) now s).1.actuator_on = v ∧
    s.version < (dispatch (.setActuator v) now s).1.version ∧
    s.version < (dispatch .toggleActuator now s).1.version ∧
    ((dispatch c now s).1 ≠ s → s.version < (dispatch c now s).1.version) := by
  refine ⟨by simp [dispatch], by simp [dispatch], by simp [dispatch], ?_⟩
  cases c <;> simp [dispatch]

/-- Witness for C8: the version counter of a concrete state strictly
increases under a concrete mutating dispatch. -/
theorem dispatch_setActuator_witness :
    specState0.version < (dispatch (.setActuator true) 3 specState0).1.version :=
  (dispatch_setActuator true 3 specState0 (.setActuator true)).2.2.2 (by decide)

/-- C7: when every slot of the session table is active, `register` fails
with `CapacityExceeded`, the registry is left exactly as it was (nothing
is evicted), and every previously registered session is still active. -/
theorem registerSpec_capacity (ip now : Nat) (s : RegistryState)
    (h : ∀ c ∈ s.clients, c.active = true) :
    (registerSpec ip now s).2 = .capacityExceeded ∧
    (registerSpec ip now s).1 = s ∧
    (∀ c ∈ (registerSpec ip now s).1.clients, c.active = true) := by
  have hfree : findFreeSlot s.clients = none := by
    simp only [findFreeSlot, List.findIdx?_eq_none_iff]
    intro c hc
    simp [h c hc]
  refine ⟨by simp [registerSpec, hfree], by simp [registerSpec, hfree], ?_⟩
  simp only [registerSpec, hfree]
  exact h

/-- Witness for C7: registering into a registry whose eight slots are all
active is rejected and changes nothing. -/
theorem registerSpec_capacity_witness :
    (registerSpec 9 9 fullRegistry).2 = .capacityExceeded ∧
    (registerSpec 9 9 fullRegistry).1 = fullRegistry :=
  ⟨(registerSpec_capacity 9 9 fullRegistry (by decide)).1,
   (registerSpec_capacity 9 9 fullRegistry (by decide)).2.1⟩

/-- With no active clients, one scheduling step never broadcasts: either
the interval has not elapsed (timer untouched) or it has (timer set to
`now`), and in both cases the sent flag is `false`. -/
theorem broadcastStatus_quiet (clients : List ClientInfo) (now last : Nat)
    (h : getActiveClientCount clients = 0) :
    (broadcastStatus clients now last).2 = false := by
  simp only [broadcastStatus, h]
  split_ifs <;> simp_all

/-- With no active clients, a whole run issues zero broadcasts. -/
theorem runBroadcasts_quiet (clients : List ClientInfo)
    (h : getActiveClientCount clients = 0) :
    ∀ (ts : List Nat) (last : Nat),
      (runBroadcasts clients last ts).2 = 0 := by
  intro ts
  induction ts with
  | nil => intro last; rfl
  | cons t rest ih =>
    intro last
    simp only [runBroadcasts]
    rw [(Prod.mk.eta (p := broadcastStatus clients t last)).symm,
      broadcastStatus_quiet clients t last h]
    simp [ih]

/-- C5: with zero active push-capable sessions the broadcast scheduler
issues zero `broadcastTXT` calls over any sequence of elapsed intervals,
yet whenever an interval has elapsed the `lastStatusBroadcast` timer still
advances to the current time. -/
theorem broadcast_suppression (clients : List ClientInfo) (ts : List Nat)
    (last now : Nat) (h : getActiveClientCount clients = 0) :
    (runBroadcasts clients last ts).2 = 0 ∧
    (BROADCAST_INTERVAL ≤ sub32 (now % U32) last →
      (broadcastStatus clients now last).1 = now % U32) := by
  refine ⟨runBroadcasts_quiet clients h ts last, fun hi => ?_⟩
  have : ¬ sub32 (now % U32) last < BROADCAST_INTERVAL := not_lt.mpr hi
  simp [broadcastStatus, this, h]

/-- Witness for C5: an empty client table, three elapsed intervals, zero
broadcasts, and the timer advancing on the elapsed interval. -/
theorem broadcast_suppression_witness :
    (runBroadcasts [] 0 [0, 6000, 12000]).2 = 0 ∧
    (broadcastStatus [] 6000 0).1 = 6000 % U32 :=
  ⟨(broadcast_suppression [] [0, 6000, 12000] 0 6000 (by decide)).1,
   (broadcast_suppression [] [0, 6000, 12000] 0 6000 (by decide)).2
     (by norm_num [sub32, U32, BROADCAST_INTERVAL])⟩

/-- The `sessionId` issued by the k-th `register` call (0-indexed) of any
event sequence is `(counter₀ + k + 1) % 2^32`: `unregister` never touches
the counter, which wraps as the `uint32_t` it is. -/
theorem runReg_ids (es : List RegEvent) : ∀ s : RegistryState,
    (runReg s es).2 =
      (List.range (regCount es)).map
        (fun k => (s.sessionCounter + k + 1) % U32) := by
  induction es with
  | nil => intro s; rfl
  | cons e rest ih =>
    intro s
    cases e with
    | reg slot ip now =>
      have hstep : runReg s (.reg slot ip now :: rest) =
          ((runReg (registerClient slot ip now s).1 rest).1,
           (registerClient slot ip now s).2 ::
             (runReg (registerClient slot ip now s).1 rest).2) := rfl
      rw [hstep]
      simp only [regCount, List.range_succ_eq_map, List.map_cons, List.map_map]
      refine congrArg₂ _ (by simp [registerClient]) ?_
      rw [ih]
      refine congrArg₂ _ (funext fun k => ?_) rfl
      show ((registerClient slot ip now s).1.sessionCounter + k + 1) % U32 =
        (s.sessionCounter + Nat.succ k + 1) % U32
      have : (registerClient slot ip now s).1.sessionCounter =
          (s.sessionCounter + 1) % U32 := rfl
      rw [this, Nat.add_assoc, Nat.mod_add_mod, Nat.succ_eq_add_one]
      ring_nf
    | unreg slot =>
      have hstep : runReg s (.unreg slot :: rest) =
          runReg (unregisterClient slot s) rest := rfl
      rw [hstep, ih]
      rfl

/-- `regCount` of a replicated `reg` event. -/
theorem regCount_replicate (n slot ip now : Nat) :
    regCount (List.replicate n (.reg slot ip now)) = n := by
  induction n with
  | zero => rfl
  | succ m ih => simp [List.replicate_succ, regCount, ih]

/-- Counterexample to C2 as stated: `sessionCounter` is a `uint32_t`, so
after `2^32` register operations it wraps and the very next `register`
issues `sessionId = 1` again — the same identifier issued by the first
`register` of the process.  The sequence of `2^32 + 1` connect events
below repeats an already-issued id even though the counter only ever
increments. -/
theorem registerClient_id_repeats :
    ((runReg initRegistry
        (List.replicate (U32 + 1) (RegEvent.reg 0 0 0))).2)[0]? = some 1 ∧
    ((runReg initRegistry
        (List.replicate (U32 + 1) (RegEvent.reg 0 0 0))).2)[U32]? = some 1 := by
  rw [runReg_ids, regCount_replicate]
  rw [List.getElem?_map, List.getElem?_map,
    List.getElem?_range (by norm_num [U32]),
    List.getElem?_range (Nat.lt_succ_self U32)]
  constructor <;> simp [initRegistry, U32]

/-- C2 amended: session identifiers never repeat as long as the process
has performed at most `2^32` register operations (the `uint32_t` counter
has not yet wrapped): for any register/unregister sequence from the
freshly initialized registry, two distinct register calls issue distinct
`sessionId`s, even when slot indices are reused. -/
theorem registerClient_ids_unique (es : List RegEvent) (i j : Nat)
    (hn : regCount es ≤ U32) (hij : i < j) (hj : j < regCount es) :
    ((runReg initRegistry es).2)[i]? ≠ ((runReg initRegistry es).2)[j]? := by
  rw [runReg_ids]
  have hi : i < regCount es := lt_trans hij hj
  rw [List.getElem?_map, List.getElem?_map, List.getElem?_range hi,
    List.getElem?_range hj]
  have hU : U32 = 4294967296 := by norm_num [U32]
  simp only [initRegistry, Option.map_some', ne_eq, Option.some.injEq]
  rw [hU] at hn ⊢
  omega

/-- Witness for the amended C2: register, unregister (recycling slot 0),
register again — the two issued ids differ. -/
theorem registerClient_ids_unique_witness :
    ((runReg initRegistry
        [RegEvent.reg 0 5 1, RegEvent.unreg 0, RegEvent.reg 0 6 2]).2)[0]? ≠
    ((runReg initRegistry
        [RegEvent.reg 0 5 1, RegEvent.unreg 0, RegEvent.reg 0 6 2]).2)[1]? :=
  registerClient_ids_unique
    [RegEvent.reg 0 5 1, RegEvent.unreg 0, RegEvent.reg 0 6 2] 0 1
    (by norm_num [regCount, U32]) (by norm_num) (by norm_num [regCount])

end ESP32
